import Mathlib

/-!
Verification of the `speed-formatter` service (src/src/main.rs).

The service is a stateless HTTP front-end: `POST /format` takes a
`FormatRequest { code, language, formatter }`, dispatches on `language`
to an external formatter subprocess (prettier via `npx`, or `rustfmt`),
pipes `code` through its stdin/stdout, and maps the outcome to an HTTP
response.  We embed the dispatcher shallowly: subprocess behaviour is an
oracle (`Env`) assigning to each (program, args) invocation a
`ToolBehavior` describing whether spawn / stdin-write / wait fail and,
if the child runs to completion, its exit status and the raw bytes it
emitted on stdout and stderr.  Each dispatch additionally produces a
trace of I/O events, so that ordering and no-spawn claims are statable.
-/

namespace SpeedFormatter

/-- The replacement character U+FFFD used by lossy UTF-8 decoding. -/
def repl : Char := Char.ofNat 0xFFFD

/-- Is `b` a UTF-8 continuation byte (0x80..=0xBF)? -/
def isCont (b : Nat) : Bool := 0x80 ≤ b && b ≤ 0xBF

/-- Valid range for the second byte of a multi-byte UTF-8 sequence whose
leading byte is `b0` (the constrained ranges for 0xE0/0xED/0xF0/0xF4
exclude overlong encodings, surrogates, and codepoints above 0x10FFFF). -/
def validSecond (b0 b1 : Nat) : Bool :=
  if b0 = 0xE0 then 0xA0 ≤ b1 && b1 ≤ 0xBF
  else if b0 = 0xED then 0x80 ≤ b1 && b1 ≤ 0x9F
  else if b0 = 0xF0 then 0x90 ≤ b1 && b1 ≤ 0xBF
  else if b0 = 0xF4 then 0x80 ≤ b1 && b1 ≤ 0x8F
  else isCont b1

/-- Lossy UTF-8 decoding of a byte list, as performed by Rust's
`String::from_utf8_lossy`: well-formed sequences decode to their
codepoint, each maximal invalid subpart is replaced by U+FFFD.
Total by construction: every byte list decodes to some character list. -/
def utf8Lossy : List Nat → List Char
  | [] => []
  | b0 :: rest =>
    if b0 < 0x80 then Char.ofNat b0 :: utf8Lossy rest
    else if 0xC2 ≤ b0 && b0 ≤ 0xDF then
      match h1 : rest with
      | [] => [repl]
      | b1 :: rest1 =>
        if isCont b1 then
          Char.ofNat ((b0 - 0xC0) * 0x40 + (b1 - 0x80)) :: utf8Lossy rest1
        else repl :: utf8Lossy rest
    else if 0xE0 ≤ b0 && b0 ≤ 0xEF then
      match h1 : rest with
      | [] => [repl]
      | b1 :: rest1 =>
        if validSecond b0 b1 then
          match h2 : rest1 with
          | [] => [repl]
          | b2 :: rest2 =>
            if isCont b2 then
              Char.ofNat ((b0 - 0xE0) * 0x1000 + (b1 - 0x80) * 0x40 + (b2 - 0x80))
                :: utf8Lossy rest2
            else repl :: utf8Lossy rest1
        else repl :: utf8Lossy rest
    else if 0xF0 ≤ b0 && b0 ≤ 0xF4 then
      match h1 : rest with
      | [] => [repl]
      | b1 :: rest1 =>
        if validSecond b0 b1 then
          match h2 : rest1 with
          | [] => [repl]
          | b2 :: rest2 =>
            if isCont b2 then
              match h3 : rest2 with
              | [] => [repl]
              | b3 :: rest3 =>
                if isCont b3 then
                  Char.ofNat ((b0 - 0xF0) * 0x40000 + (b1 - 0x80) * 0x1000
                      + (b2 - 0x80) * 0x40 + (b3 - 0x80)) :: utf8Lossy rest3
                else repl :: utf8Lossy rest2
            else repl :: utf8Lossy rest1
        else repl :: utf8Lossy rest
    else repl :: utf8Lossy rest
termination_by bs => bs.length
decreasing_by all_goals subst_vars; simp only [List.length_cons]; omega

/-- `String::from_utf8_lossy(bytes).to_string()`. -/
def fromUtf8Lossy (bs : List Nat) : String := String.mk (utf8Lossy bs)

/-- The request body of `POST /format` (struct `FormatRequest`,
main.rs lines 13-18).  `formatter` is an optional hint field. -/
structure FormatRequest where
  code : String
  language : String
  formatter : Option String
deriving DecidableEq, Repr

/-- The success body (struct `FormatResponse`, main.rs lines 20-26). -/
structure FormatResponse where
  formatted_code : String
  execution_time_ms : Nat
  formatter_used : String
  status : String
deriving DecidableEq, Repr

/-- The error body (struct `ErrorResponse`, main.rs lines 28-32). -/
structure ErrorResponse where
  error : String
  details : String
deriving DecidableEq, Repr

/-- An HTTP response of the `/format` handler: either 200 with a
`FormatResponse` body, or an error status code with an `ErrorResponse`. -/
inductive HttpResponse where
  | success (body : FormatResponse)
  | failure (statusCode : Nat) (body : ErrorResponse)
deriving DecidableEq, Repr

/-- Observable behaviour of one subprocess invocation, as decided by the
outside world: whether `spawn()` fails, whether `write_all` to the
child's stdin fails, whether `wait_with_output()` fails, and otherwise
the exit status and the raw bytes captured from stdout and stderr. -/
structure ToolBehavior where
  spawnErr : Option String
  writeErr : Option String
  waitErr : Option String
  exitSuccess : Bool
  stdoutBytes : List Nat
  stderrBytes : List Nat
deriving DecidableEq, Repr

/-- The environment: what happens when a given program is spawned with
given arguments. -/
def Env : Type := String → List String → ToolBehavior

/-- One step of the dispatcher's interaction with a child process. -/
inductive IOEvent where
  | spawn (prog : String) (args : List String)
  | writeStdin (code : String)
  | closeStdin
  | readStdout (bytes : List Nat)
  | readStderr (bytes : List Nat)
  | waitExit (success : Bool)
deriving DecidableEq, Repr

/-- The spawn attempts recorded in a trace. -/
def spawnsOf : List IOEvent → List (String × List String)
  | [] => []
  | IOEvent.spawn p a :: rest => (p, a) :: spawnsOf rest
  | _ :: rest => spawnsOf rest

/-- Program name for the JavaScript/TypeScript path (main.rs line 92). -/
def npxProg : String := "npx"

/-- Arguments of the prettier invocation (main.rs line 93). -/
def prettierArgs : List String :=
  ["prettier", "--stdin-filepath", "file.js", "--parser", "babel"]

/-- Program name for the Rust path (main.rs line 118). -/
def rustfmtProg : String := "rustfmt"

/-- Arguments of the rustfmt invocation (main.rs line 119). -/
def rustfmtArgs : List String := ["--emit", "stdout"]

/-- Error-message prefix of main.rs line 100. -/
def spawnPrettierMsg : String := "Failed to spawn prettier: "

/-- Error-message prefix of main.rs lines 104 and 130. -/
def writeStdinMsg : String := "Failed to write to stdin: "

/-- Error-message prefix of main.rs line 106. -/
def waitPrettierMsg : String := "Prettier failed: "

/-- Error-message prefix of main.rs line 113. -/
def rejectPrettierMsg : String := "Prettier error: "

/-- Error-message prefix of main.rs line 126. -/
def spawnRustfmtMsg : String := "Failed to spawn rustfmt: "

/-- Error-message prefix of main.rs line 132. -/
def waitRustfmtMsg : String := "rustfmt failed: "

/-- Error-message prefix of main.rs line 139. -/
def rejectRustfmtMsg : String := "rustfmt error: "

/-- `format_with_prettier` (main.rs lines 90-115): spawn
`npx prettier --stdin-filepath file.js --parser babel`, write `code` to
its stdin, wait; on success return the lossily decoded stdout paired
with the label `"prettier"`, on tool failure return
`"Prettier error: " ++ stderr`.  The second component is the trace of
I/O events performed on the child. -/
def format_with_prettier (env : Env) (code : String) :
    Except String (String × String) × List IOEvent :=
  let b := env npxProg prettierArgs
  match b.spawnErr with
  | some e => (Except.error (spawnPrettierMsg ++ e), [IOEvent.spawn npxProg prettierArgs])
  | none =>
    match b.writeErr with
    | some e => (Except.error (writeStdinMsg ++ e), [IOEvent.spawn npxProg prettierArgs])
    | none =>
      match b.waitErr with
      | some e =>
        (Except.error (waitPrettierMsg ++ e),
         [IOEvent.spawn npxProg prettierArgs, IOEvent.writeStdin code, IOEvent.closeStdin])
      | none =>
        let tr := [IOEvent.spawn npxProg prettierArgs, IOEvent.writeStdin code,
                   IOEvent.closeStdin, IOEvent.readStdout b.stdoutBytes,
                   IOEvent.readStderr b.stderrBytes, IOEvent.waitExit b.exitSuccess]
        if b.exitSuccess then
          (Except.ok (fromUtf8Lossy b.stdoutBytes, "prettier"), tr)
        else
          (Except.error (rejectPrettierMsg ++ fromUtf8Lossy b.stderrBytes), tr)

/-- `format_with_rustfmt` (main.rs lines 117-141): spawn
`rustfmt --emit stdout`, write `code` to its stdin, wait; on success
return the lossily decoded stdout paired with the label `"rustfmt"`,
on tool failure return `"rustfmt error: " ++ stderr`. -/
def format_with_rustfmt (env : Env) (code : String) :
    Except String (String × String) × List IOEvent :=
  let b := env rustfmtProg rustfmtArgs
  match b.spawnErr with
  | some e => (Except.error (spawnRustfmtMsg ++ e), [IOEvent.spawn rustfmtProg rustfmtArgs])
  | none =>
    match b.writeErr with
    | some e => (Except.error (writeStdinMsg ++ e), [IOEvent.spawn rustfmtProg rustfmtArgs])
    | none =>
      match b.waitErr with
      | some e =>
        (Except.error (waitRustfmtMsg ++ e),
         [IOEvent.spawn rustfmtProg rustfmtArgs, IOEvent.writeStdin code, IOEvent.closeStdin])
      | none =>
        let tr := [IOEvent.spawn rustfmtProg rustfmtArgs, IOEvent.writeStdin code,
                   IOEvent.closeStdin, IOEvent.readStdout b.stdoutBytes,
                   IOEvent.readStderr b.stderrBytes, IOEvent.waitExit b.exitSuccess]
        if b.exitSuccess then
          (Except.ok (fromUtf8Lossy b.stdoutBytes, "rustfmt"), tr)
        else
          (Except.error (rejectRustfmtMsg ++ fromUtf8Lossy b.stderrBytes), tr)

/-- The tail of `format_code` (main.rs lines 65-87): wrap the dispatch
result into the HTTP response, with the caller-measured elapsed time. -/
def respond (elapsed : Nat) :
    Except String (String × String) × List IOEvent → HttpResponse × List IOEvent
  | (Except.ok (formatted, formatter), tr) =>
      (HttpResponse.success
        { formatted_code := formatted, execution_time_ms := elapsed,
          formatter_used := formatter, status := "success" }, tr)
  | (Except.error e, tr) =>
      (HttpResponse.failure 500 { error := "Formatting failed", details := e }, tr)

/-- The `POST /format` handler `format_code` (main.rs lines 42-88).
`elapsed` is the wall-clock duration measured around the dispatch; it is
an input of the model since it comes from the clock, not the code. -/
def format_code (env : Env) (elapsed : Nat) (payload : FormatRequest) :
    HttpResponse × List IOEvent :=
  match payload.language with
  | "javascript" | "typescript" | "js" | "ts" =>
      respond elapsed (format_with_prettier env payload.code)
  | "rust" =>
      respond elapsed (format_with_rustfmt env payload.code)
  | _ =>
      (HttpResponse.failure 400
        { error := "Unsupported language",
          details := "Language '" ++ payload.language ++ "' is not supported yet" }, [])

/-- The `GET /health` body (main.rs lines 34-40). -/
structure HealthBody where
  status : String
  service : String
  version : String
deriving DecidableEq, Repr

/-- The `GET /health` handler (main.rs lines 34-40): a constant, taking
no input at all, hence trivially independent of requests and history. -/
def health : HealthBody :=
  { status := "healthy", service := "speed-formatter-mvp", version := "0.1.0" }

/-- The recognized JavaScript/TypeScript language tokens (main.rs line 48). -/
def jsLanguages : List String := ["javascript", "typescript", "js", "ts"]

/-- The three fallible steps of a dispatch before exit-status inspection. -/
inductive FailStep where
  | spawnStep
  | writeStep
  | waitStep
deriving DecidableEq, Repr

/-- `startsWith p s`: does `s` begin with `p`? -/
def startsWith (p s : String) : Bool := s.data.take p.data.length == p.data

/-- Recover, from a prettier-path failure message alone, which step
failed, by its fixed prefix. -/
def classifyPrettierFailure (s : String) : Option FailStep :=
  if startsWith spawnPrettierMsg s then some FailStep.spawnStep
  else if startsWith writeStdinMsg s then some FailStep.writeStep
  else if startsWith waitPrettierMsg s then some FailStep.waitStep
  else none

/-- Recover, from a rustfmt-path failure message alone, which step
failed, by its fixed prefix. -/
def classifyRustfmtFailure (s : String) : Option FailStep :=
  if startsWith spawnRustfmtMsg s then some FailStep.spawnStep
  else if startsWith writeStdinMsg s then some FailStep.writeStep
  else if startsWith waitRustfmtMsg s then some FailStep.waitStep
  else none

/-- A well-behaved environment for concrete witnesses: every tool runs,
exits successfully, prints the two bytes `"a\n"` and no stderr. -/
def envOk : Env := fun _ _ =>
  { spawnErr := none, writeErr := none, waitErr := none,
    exitSuccess := true, stdoutBytes := [0x61, 0x0A], stderrBytes := [] }

/-- An environment whose every tool runs but exits with failure status,
emitting the single stderr byte `"b"`. -/
def envReject : Env := fun _ _ =>
  { spawnErr := none, writeErr := none, waitErr := none,
    exitSuccess := false, stdoutBytes := [], stderrBytes := [0x62] }

/-- An environment where every spawn fails with fault text `"no such file"`. -/
def envNoSpawn : Env := fun _ _ =>
  { spawnErr := some "no such file", writeErr := none, waitErr := none,
    exitSuccess := true, stdoutBytes := [], stderrBytes := [] }

/-- An environment where writing to the child's stdin fails. -/
def envNoWrite : Env := fun _ _ =>
  { spawnErr := none, writeErr := some "broken pipe", waitErr := none,
    exitSuccess := true, stdoutBytes := [], stderrBytes := [] }

/-- An environment where waiting for the child fails. -/
def envNoWait : Env := fun _ _ =>
  { spawnErr := none, writeErr := none, waitErr := some "interrupted",
    exitSuccess := true, stdoutBytes := [], stderrBytes := [] }

lemma string_data_append (s t : String) : (s ++ t).data = s.data ++ t.data := rfl

lemma startsWith_append (p e : String) : startsWith p (p ++ e) = true := by
  simp [startsWith, string_data_append, List.take_append_eq_append_take,
        List.take_length, Nat.sub_self, List.take_zero, List.append_nil]

lemma startsWith_append_of_take_ne (p q e : String)
    (hlen : p.data.length ≤ q.data.length)
    (hne : (q.data.take p.data.length == p.data) = false) :
    startsWith p (q ++ e) = false := by
  simp only [startsWith, string_data_append, List.take_append_eq_append_take,
             Nat.sub_eq_zero_of_le hlen, List.take_zero, List.append_nil]
  exact hne

/-- Every run of `format_with_prettier` attempts exactly one spawn:
`npx prettier --stdin-filepath file.js --parser babel`. -/
lemma spawnsOf_format_with_prettier (env : Env) (code : String) :
    spawnsOf (format_with_prettier env code).2 = [(npxProg, prettierArgs)] := by
  cases h1 : (env npxProg prettierArgs).spawnErr with
  | some e => simp [format_with_prettier, h1, spawnsOf]
  | none =>
    cases h2 : (env npxProg prettierArgs).writeErr with
    | some e => simp [format_with_prettier, h1, h2, spawnsOf]
    | none =>
      cases h3 : (env npxProg prettierArgs).waitErr with
      | some e => simp [format_with_prettier, h1, h2, h3, spawnsOf]
      | none =>
        by_cases h4 : (env npxProg prettierArgs).exitSuccess <;>
          simp [format_with_prettier, h1, h2, h3, h4, spawnsOf]

/-- Every run of `format_with_rustfmt` attempts exactly one spawn:
`rustfmt --emit stdout`. -/
lemma spawnsOf_format_with_rustfmt (env : Env) (code : String) :
    spawnsOf (format_with_rustfmt env code).2 = [(rustfmtProg, rustfmtArgs)] := by
  cases h1 : (env rustfmtProg rustfmtArgs).spawnErr with
  | some e => simp [format_with_rustfmt, h1, spawnsOf]
  | none =>
    cases h2 : (env rustfmtProg rustfmtArgs).writeErr with
    | some e => simp [format_with_rustfmt, h1, h2, spawnsOf]
    | none =>
      cases h3 : (env rustfmtProg rustfmtArgs).waitErr with
      | some e => simp [format_with_rustfmt, h1, h2, h3, spawnsOf]
      | none =>
        by_cases h4 : (env rustfmtProg rustfmtArgs).exitSuccess <;>
          simp [format_with_rustfmt, h1, h2, h3, h4, spawnsOf]

/-- `respond` preserves the trace. -/
lemma respond_snd (elapsed : Nat) (r : Except String (String × String) × List IOEvent) :
    (respond elapsed r).2 = r.2 := by
  rcases r with ⟨res, tr⟩
  rcases res with e | ⟨f, g⟩ <;> simp [respond]

lemma format_with_prettier_spawn_fail (env : Env) (code e : String)
    (h : (env npxProg prettierArgs).spawnErr = some e) :
    format_with_prettier env code =
      (Except.error (spawnPrettierMsg ++ e), [IOEvent.spawn npxProg prettierArgs]) := by
  simp [format_with_prettier, h]

lemma format_with_prettier_write_fail (env : Env) (code e : String)
    (h1 : (env npxProg prettierArgs).spawnErr = none)
    (h2 : (env npxProg prettierArgs).writeErr = some e) :
    format_with_prettier env code =
      (Except.error (writeStdinMsg ++ e), [IOEvent.spawn npxProg prettierArgs]) := by
  simp [format_with_prettier, h1, h2]

lemma format_with_prettier_wait_fail (env : Env) (code e : String)
    (h1 : (env npxProg prettierArgs).spawnErr = none)
    (h2 : (env npxProg prettierArgs).writeErr = none)
    (h3 : (env npxProg prettierArgs).waitErr = some e) :
    format_with_prettier env code =
      (Except.error (waitPrettierMsg ++ e),
       [IOEvent.spawn npxProg prettierArgs, IOEvent.writeStdin code, IOEvent.closeStdin]) := by
  simp [format_with_prettier, h1, h2, h3]

lemma format_with_prettier_run (env : Env) (code : String)
    (h1 : (env npxProg prettierArgs).spawnErr = none)
    (h2 : (env npxProg prettierArgs).writeErr = none)
    (h3 : (env npxProg prettierArgs).waitErr = none) :
    format_with_prettier env code =
      ((if (env npxProg prettierArgs).exitSuccess then
          Except.ok (fromUtf8Lossy (env npxProg prettierArgs).stdoutBytes, "prettier")
        else
          Except.error (rejectPrettierMsg ++ fromUtf8Lossy (env npxProg prettierArgs).stderrBytes)),
       [IOEvent.spawn npxProg prettierArgs, IOEvent.writeStdin code, IOEvent.closeStdin,
        IOEvent.readStdout (env npxProg prettierArgs).stdoutBytes,
        IOEvent.readStderr (env npxProg prettierArgs).stderrBytes,
        IOEvent.waitExit (env npxProg prettierArgs).exitSuccess]) := by
  by_cases h4 : (env npxProg prettierArgs).exitSuccess <;>
    simp [format_with_prettier, h1, h2, h3, h4]

lemma format_with_rustfmt_spawn_fail (env : Env) (code e : String)
    (h : (env rustfmtProg rustfmtArgs).spawnErr = some e) :
    format_with_rustfmt env code =
      (Except.error (spawnRustfmtMsg ++ e), [IOEvent.spawn rustfmtProg rustfmtArgs]) := by
  simp [format_with_rustfmt, h]

lemma format_with_rustfmt_write_fail (env : Env) (code e : String)
    (h1 : (env rustfmtProg rustfmtArgs).spawnErr = none)
    (h2 : (env rustfmtProg rustfmtArgs).writeErr = some e) :
    format_with_rustfmt env code =
      (Except.error (writeStdinMsg ++ e), [IOEvent.spawn rustfmtProg rustfmtArgs]) := by
  simp [format_with_rustfmt, h1, h2]

lemma format_with_rustfmt_wait_fail (env : Env) (code e : String)
    (h1 : (env rustfmtProg rustfmtArgs).spawnErr = none)
    (h2 : (env rustfmtProg rustfmtArgs).writeErr = none)
    (h3 : (env rustfmtProg rustfmtArgs).waitErr = some e) :
    format_with_rustfmt env code =
      (Except.error (waitRustfmtMsg ++ e),
       [IOEvent.spawn rustfmtProg rustfmtArgs, IOEvent.writeStdin code, IOEvent.closeStdin]) := by
  simp [format_with_rustfmt, h1, h2, h3]

lemma format_with_rustfmt_run (env : Env) (code : String)
    (h1 : (env rustfmtProg rustfmtArgs).spawnErr = none)
    (h2 : (env rustfmtProg rustfmtArgs).writeErr = none)
    (h3 : (env rustfmtProg rustfmtArgs).waitErr = none) :
    format_with_rustfmt env code =
      ((if (env rustfmtProg rustfmtArgs).exitSuccess then
          Except.ok (fromUtf8Lossy (env rustfmtProg rustfmtArgs).stdoutBytes, "rustfmt")
        else
          Except.error (rejectRustfmtMsg ++ fromUtf8Lossy (env rustfmtProg rustfmtArgs).stderrBytes)),
       [IOEvent.spawn rustfmtProg rustfmtArgs, IOEvent.writeStdin code, IOEvent.closeStdin,
        IOEvent.readStdout (env rustfmtProg rustfmtArgs).stdoutBytes,
        IOEvent.readStderr (env rustfmtProg rustfmtArgs).stderrBytes,
        IOEvent.waitExit (env rustfmtProg rustfmtArgs).exitSuccess]) := by
  by_cases h4 : (env rustfmtProg rustfmtArgs).exitSuccess <;>
    simp [format_with_rustfmt, h1, h2, h3, h4]

/-- Recognized JavaScript/TypeScript tokens take the prettier path. -/
lemma format_code_js (env : Env) (elapsed : Nat) (req : FormatRequest)
    (h : req.language ∈ jsLanguages) :
    format_code env elapsed req = respond elapsed (format_with_prettier env req.code) := by
  obtain ⟨code, lang, fmt⟩ := req
  simp only [jsLanguages, List.mem_cons, List.mem_singleton, List.not_mem_nil, or_false] at h
  rcases h with h | h | h | h <;> subst h <;> rfl

/-- The token `"rust"` takes the rustfmt path. -/
lemma format_code_rust (env : Env) (elapsed : Nat) (req : FormatRequest)
    (h : req.language = "rust") :
    format_code env elapsed req = respond elapsed (format_with_rustfmt env req.code) := by
  obtain ⟨code, lang, fmt⟩ := req
  subst h
  rfl

/-- Unrecognized tokens short-circuit to the fixed 400 response. -/
lemma format_code_other (env : Env) (elapsed : Nat) (req : FormatRequest)
    (h1 : req.language ∉ jsLanguages) (h2 : req.language ≠ "rust") :
    format_code env elapsed req =
      (HttpResponse.failure 400
        { error := "Unsupported language",
          details := "Language '" ++ req.language ++ "' is not supported yet" }, []) := by
  obtain ⟨code, lang, fmt⟩ := req
  simp only [jsLanguages, List.mem_cons, List.mem_singleton, List.not_mem_nil, or_false,
             not_or] at h1
  obtain ⟨n1, n2, n3, n4⟩ := h1
  unfold format_code
  split <;> simp_all

lemma respond_failure (elapsed : Nat) (r : Except String (String × String) × List IOEvent)
    (s : Nat) (body : ErrorResponse) (tr : List IOEvent)
    (h : respond elapsed r = (HttpResponse.failure s body, tr)) :
    s = 500 ∧ body.error = "Formatting failed" ∧ r.1 = Except.error body.details ∧ r.2 = tr := by
  rcases r with ⟨res, tr0⟩
  rcases res with e | ⟨f, g⟩ <;> simp [respond] at h
  · obtain ⟨⟨hs, hb⟩, ht⟩ := h
    subst hs; subst ht
    refine ⟨rfl, ?_, ?_, rfl⟩ <;> rw [← hb]

lemma respond_success (elapsed : Nat) (r : Except String (String × String) × List IOEvent)
    (body : FormatResponse) (tr : List IOEvent)
    (h : respond elapsed r = (HttpResponse.success body, tr)) :
    r.1 = Except.ok (body.formatted_code, body.formatter_used) ∧
    body.execution_time_ms = elapsed ∧ body.status = "success" ∧ r.2 = tr := by
  rcases r with ⟨res, tr0⟩
  rcases res with e | ⟨f, g⟩ <;> simp [respond] at h
  obtain ⟨hb, ht⟩ := h
  subst ht
  rw [← hb]
  exact ⟨rfl, rfl, rfl, rfl⟩

lemma startsWith_eq_false_of_take_ne (p q e : String) (n : Nat)
    (hp : n ≤ p.data.length) (hq : n ≤ q.data.length)
    (hne : q.data.take n ≠ p.data.take n) :
    startsWith p (q ++ e) = false := by
  rw [startsWith, string_data_append, Bool.eq_false_iff]
  intro hb
  have hb' : (q.data ++ e.data).take p.data.length = p.data := eq_of_beq hb
  apply hne
  have h := congrArg (List.take n) hb'
  rw [List.take_take, Nat.min_eq_left hp, List.take_append_eq_append_take,
      Nat.sub_eq_zero_of_le hq, List.take_zero, List.append_nil] at h
  exact h

lemma classifyPrettier_spawn (e : String) :
    classifyPrettierFailure (spawnPrettierMsg ++ e) = some FailStep.spawnStep := by
  rw [classifyPrettierFailure, startsWith_append]
  rfl

lemma classifyPrettier_write (e : String) :
    classifyPrettierFailure (writeStdinMsg ++ e) = some FailStep.writeStep := by
  rw [classifyPrettierFailure,
      startsWith_eq_false_of_take_ne spawnPrettierMsg writeStdinMsg e 11 (by decide) (by decide)
        (by decide),
      startsWith_append]
  rfl

lemma classifyPrettier_wait (e : String) :
    classifyPrettierFailure (waitPrettierMsg ++ e) = some FailStep.waitStep := by
  rw [classifyPrettierFailure,
      startsWith_eq_false_of_take_ne spawnPrettierMsg waitPrettierMsg e 1 (by decide) (by decide)
        (by decide),
      startsWith_eq_false_of_take_ne writeStdinMsg waitPrettierMsg e 1 (by decide) (by decide)
        (by decide),
      startsWith_append]
  rfl

lemma classifyRustfmt_spawn (e : String) :
    classifyRustfmtFailure (spawnRustfmtMsg ++ e) = some FailStep.spawnStep := by
  rw [classifyRustfmtFailure, startsWith_append]
  rfl

lemma classifyRustfmt_write (e : String) :
    classifyRustfmtFailure (writeStdinMsg ++ e) = some FailStep.writeStep := by
  rw [classifyRustfmtFailure,
      startsWith_eq_false_of_take_ne spawnRustfmtMsg writeStdinMsg e 11 (by decide) (by decide)
        (by decide),
      startsWith_append]
  rfl

lemma classifyRustfmt_wait (e : String) :
    classifyRustfmtFailure (waitRustfmtMsg ++ e) = some FailStep.waitStep := by
  rw [classifyRustfmtFailure,
      startsWith_eq_false_of_take_ne spawnRustfmtMsg waitRustfmtMsg e 1 (by decide) (by decide)
        (by decide),
      startsWith_eq_false_of_take_ne writeStdinMsg waitRustfmtMsg e 1 (by decide) (by decide)
        (by decide),
      startsWith_append]
  rfl

lemma format_with_prettier_ok_inv (env : Env) (code : String) (p : String × String)
    (h : (format_with_prettier env code).1 = Except.ok p) :
    p = (fromUtf8Lossy (env npxProg prettierArgs).stdoutBytes, "prettier") := by
  cases h1 : (env npxProg prettierArgs).spawnErr with
  | some e => rw [format_with_prettier_spawn_fail env code e h1] at h; simp at h
  | none =>
    cases h2 : (env npxProg prettierArgs).writeErr with
    | some e => rw [format_with_prettier_write_fail env code e h1 h2] at h; simp at h
    | none =>
      cases h3 : (env npxProg prettierArgs).waitErr with
      | some e => rw [format_with_prettier_wait_fail env code e h1 h2 h3] at h; simp at h
      | none =>
        rw [format_with_prettier_run env code h1 h2 h3] at h
        by_cases h4 : (env npxProg prettierArgs).exitSuccess
        · simp [h4] at h; exact h.symm
        · simp [h4] at h

lemma format_with_rustfmt_ok_inv (env : Env) (code : String) (p : String × String)
    (h : (format_with_rustfmt env code).1 = Except.ok p) :
    p = (fromUtf8Lossy (env rustfmtProg rustfmtArgs).stdoutBytes, "rustfmt") := by
  cases h1 : (env rustfmtProg rustfmtArgs).spawnErr with
  | some e => rw [format_with_rustfmt_spawn_fail env code e h1] at h; simp at h
  | none =>
    cases h2 : (env rustfmtProg rustfmtArgs).writeErr with
    | some e => rw [format_with_rustfmt_write_fail env code e h1 h2] at h; simp at h
    | none =>
      cases h3 : (env rustfmtProg rustfmtArgs).waitErr with
      | some e => rw [format_with_rustfmt_wait_fail env code e h1 h2 h3] at h; simp at h
      | none =>
        rw [format_with_rustfmt_run env code h1 h2 h3] at h
        by_cases h4 : (env rustfmtProg rustfmtArgs).exitSuccess
        · simp [h4] at h; exact h.symm
        · simp [h4] at h

/-- C1: the language string is matched case-sensitively; any of
`"javascript"`, `"typescript"`, `"js"`, `"ts"` makes `format_code`
invoke exactly the prettier command (and never rustfmt), while exactly
`"rust"` makes it invoke exactly the rustfmt command (and never
prettier): in each case the list of spawn attempts of the dispatch is
the singleton of the corresponding tool invocation. -/
theorem dispatch_language_routing (env : Env) (elapsed : Nat) (req : FormatRequest) :
    (req.language ∈ jsLanguages →
      spawnsOf (format_code env elapsed req).2 = [(npxProg, prettierArgs)]) ∧
    (req.language = "rust" →
      spawnsOf (format_code env elapsed req).2 = [(rustfmtProg, rustfmtArgs)]) := by
  constructor
  · intro hl
    rw [format_code_js env elapsed req hl, respond_snd, spawnsOf_format_with_prettier]
  · intro hr
    rw [format_code_rust env elapsed req hr, respond_snd, spawnsOf_format_with_rustfmt]

theorem dispatch_language_routing_witness :
    spawnsOf (format_code envOk 1 ⟨"const x=1", "javascript", none⟩).2
        = [(npxProg, prettierArgs)] ∧
    spawnsOf (format_code envOk 1 ⟨"fn main()", "rust", none⟩).2
        = [(rustfmtProg, rustfmtArgs)] :=
  ⟨(dispatch_language_routing envOk 1 ⟨"const x=1", "javascript", none⟩).1
      (by simp [jsLanguages]),
   (dispatch_language_routing envOk 1 ⟨"fn main()", "rust", none⟩).2 rfl⟩

/-- C2: an unrecognized language yields HTTP 400 with error exactly
`"Unsupported language"` and a details text carrying the language, and
an empty I/O trace: no subprocess is spawned and neither formatter
function runs. -/
theorem unsupported_language_rejected (env : Env) (elapsed : Nat) (req : FormatRequest)
    (h1 : req.language ∉ jsLanguages) (h2 : req.language ≠ "rust") :
    format_code env elapsed req =
      (HttpResponse.failure 400
        { error := "Unsupported language",
          details := "Language '" ++ req.language ++ "' is not supported yet" }, []) :=
  format_code_other env elapsed req h1 h2

theorem unsupported_language_rejected_witness :
    format_code envOk 2 ⟨"x", "python", none⟩ =
      (HttpResponse.failure 400
        { error := "Unsupported language",
          details := "Language 'python' is not supported yet" }, []) :=
  unsupported_language_rejected envOk 2 ⟨"x", "python", none⟩
    (by simp [jsLanguages]) (by simp)

/-- C3 counterexample: when prettier exits with failure status and
stderr bytes `"b"`, the details field is `"Prettier error: b"`, which
differs from the lossy-decoded stderr text `"b"`: the details are not
exactly the tool's stderr. -/
theorem error_details_not_exact_stderr :
    (format_code envReject 3 ⟨"const x=1", "javascript", none⟩).1 =
      HttpResponse.failure 500
        { error := "Formatting failed", details := "Prettier error: b" } ∧
    fromUtf8Lossy (envReject npxProg prettierArgs).stderrBytes = "b" ∧
    "Prettier error: b" ≠ "b" := by
  refine ⟨?_, ?_, by decide⟩
  · rw [format_code_js envReject 3 ⟨"const x=1", "javascript", none⟩ (by simp [jsLanguages]),
        format_with_prettier_run envReject _ rfl rfl rfl]
    simp [respond, envReject, fromUtf8Lossy, utf8Lossy, rejectPrettierMsg]
  · simp [envReject, fromUtf8Lossy, utf8Lossy]

/-- C3 amended: when the external tool exits with a failure status, the
details field of the 500 response is the fixed tool-identifying prefix
(`"Prettier error: "` or `"rustfmt error: "`) followed by exactly the
lossy-decoded stderr text. -/
theorem error_details_prefixed_stderr (env : Env) (elapsed : Nat) (req : FormatRequest) :
    (req.language ∈ jsLanguages →
      (env npxProg prettierArgs).spawnErr = none →
      (env npxProg prettierArgs).writeErr = none →
      (env npxProg prettierArgs).waitErr = none →
      (env npxProg prettierArgs).exitSuccess = false →
      (format_code env elapsed req).1 =
        HttpResponse.failure 500
          { error := "Formatting failed",
            details := rejectPrettierMsg
              ++ fromUtf8Lossy (env npxProg prettierArgs).stderrBytes }) ∧
    (req.language = "rust" →
      (env rustfmtProg rustfmtArgs).spawnErr = none →
      (env rustfmtProg rustfmtArgs).writeErr = none →
      (env rustfmtProg rustfmtArgs).waitErr = none →
      (env rustfmtProg rustfmtArgs).exitSuccess = false →
      (format_code env elapsed req).1 =
        HttpResponse.failure 500
          { error := "Formatting failed",
            details := rejectRustfmtMsg
              ++ fromUtf8Lossy (env rustfmtProg rustfmtArgs).stderrBytes }) := by
  constructor
  · intro hl h1 h2 h3 h4
    rw [format_code_js env elapsed req hl, format_with_prettier_run env req.code h1 h2 h3]
    simp [respond, h4]
  · intro hr h1 h2 h3 h4
    rw [format_code_rust env elapsed req hr, format_with_rustfmt_run env req.code h1 h2 h3]
    simp [respond, h4]

theorem error_details_prefixed_stderr_witness :
    (format_code envReject 3 ⟨"fn main()", "rust", none⟩).1 =
      HttpResponse.failure 500
        { error := "Formatting failed",
          details := rejectRustfmtMsg
            ++ fromUtf8Lossy (envReject rustfmtProg rustfmtArgs).stderrBytes } :=
  (error_details_prefixed_stderr envReject 3 ⟨"fn main()", "rust", none⟩).2
    rfl rfl rfl rfl rfl

/-- C4 counterexample: a successful JavaScript dispatch reports
`formatter_used = "prettier"`, not the label `"prettier-equivalent"`
stated by the claim. -/
theorem formatter_used_not_equivalent_label :
    (format_code envOk 1 ⟨"const x=1", "javascript", none⟩).1 =
      HttpResponse.success
        { formatted_code := "a\n", execution_time_ms := 1,
          formatter_used := "prettier", status := "success" } ∧
    "prettier" ≠ "prettier-equivalent" := by
  refine ⟨?_, by decide⟩
  rw [format_code_js envOk 1 ⟨"const x=1", "javascript", none⟩ (by simp [jsLanguages]),
      format_with_prettier_run envOk _ rfl rfl rfl]
  simp [respond, envOk, fromUtf8Lossy, utf8Lossy]

/-- C4 amended: on every successful dispatch the `formatter_used` field
is the fixed label `"prettier"` when the JavaScript/TypeScript path was
taken and `"rustfmt"` when the Rust path was taken. -/
theorem formatter_used_labels (env : Env) (elapsed : Nat) (req : FormatRequest)
    (body : FormatResponse) (tr : List IOEvent) :
    format_code env elapsed req = (HttpResponse.success body, tr) →
    ((req.language ∈ jsLanguages → body.formatter_used = "prettier") ∧
     (req.language = "rust" → body.formatter_used = "rustfmt")) := by
  intro h
  constructor
  · intro hl
    rw [format_code_js env elapsed req hl] at h
    obtain ⟨hok, -, -, -⟩ := respond_success elapsed _ body tr h
    exact congrArg Prod.snd (format_with_prettier_ok_inv env req.code _ hok)
  · intro hr
    rw [format_code_rust env elapsed req hr] at h
    obtain ⟨hok, -, -, -⟩ := respond_success elapsed _ body tr h
    exact congrArg Prod.snd (format_with_rustfmt_ok_inv env req.code _ hok)

theorem formatter_used_labels_witness :
    ({ formatted_code := "a\n", execution_time_ms := 1,
       formatter_used := "prettier", status := "success" } :
        FormatResponse).formatter_used = "prettier" :=
  (formatter_used_labels envOk 1 ⟨"const x=1", "javascript", none⟩
    { formatted_code := "a\n", execution_time_ms := 1,
      formatter_used := "prettier", status := "success" }
    [IOEvent.spawn npxProg prettierArgs, IOEvent.writeStdin "const x=1",
     IOEvent.closeStdin, IOEvent.readStdout [0x61, 0x0A], IOEvent.readStderr [],
     IOEvent.waitExit true]
    (by rw [format_code_js envOk 1 ⟨"const x=1", "javascript", none⟩ (by simp [jsLanguages]),
            format_with_prettier_run envOk _ rfl rfl rfl]
        simp [respond, envOk, fromUtf8Lossy, utf8Lossy])).1
    (by simp [jsLanguages])

/-- C5: when the child exits successfully, the result is a 200 success
whose `formatted_code` is exactly the captured stdout bytes decoded
lossily (total on arbitrary byte lists, so decoding never fails), for
both the prettier and the rustfmt path. -/
theorem success_lossy_stdout (env : Env) (elapsed : Nat) (req : FormatRequest) :
    (req.language ∈ jsLanguages →
      (env npxProg prettierArgs).spawnErr = none →
      (env npxProg prettierArgs).writeErr = none →
      (env npxProg prettierArgs).waitErr = none →
      (env npxProg prettierArgs).exitSuccess = true →
      (format_code env elapsed req).1 =
        HttpResponse.success
          { formatted_code := fromUtf8Lossy (env npxProg prettierArgs).stdoutBytes,
            execution_time_ms := elapsed, formatter_used := "prettier",
            status := "success" }) ∧
    (req.language = "rust" →
      (env rustfmtProg rustfmtArgs).spawnErr = none →
      (env rustfmtProg rustfmtArgs).writeErr = none →
      (env rustfmtProg rustfmtArgs).waitErr = none →
      (env rustfmtProg rustfmtArgs).exitSuccess = true →
      (format_code env elapsed req).1 =
        HttpResponse.success
          { formatted_code := fromUtf8Lossy (env rustfmtProg rustfmtArgs).stdoutBytes,
            execution_time_ms := elapsed, formatter_used := "rustfmt",
            status := "success" }) := by
  constructor
  · intro hl h1 h2 h3 h4
    rw [format_code_js env elapsed req hl, format_with_prettier_run env req.code h1 h2 h3]
    simp [respond, h4]
  · intro hr h1 h2 h3 h4
    rw [format_code_rust env elapsed req hr, format_with_rustfmt_run env req.code h1 h2 h3]
    simp [respond, h4]

theorem success_lossy_stdout_witness :
    (format_code envOk 7 ⟨"const x=1", "ts", none⟩).1 =
      HttpResponse.success
        { formatted_code := fromUtf8Lossy (envOk npxProg prettierArgs).stdoutBytes,
          execution_time_ms := 7, formatter_used := "prettier",
          status := "success" } :=
  (success_lossy_stdout envOk 7 ⟨"const x=1", "ts", none⟩).1
    (by simp [jsLanguages]) rfl rfl rfl rfl

/-- C6: a spawn failure, a stdin-write failure, or a wait failure each
yields a 500 response with error `"Formatting failed"` whose details are
a step-specific fixed prefix followed by the underlying fault text, and
the step that failed is recoverable from the message alone. -/
theorem io_failure_surfaced (env : Env) (elapsed : Nat) (req : FormatRequest) (e : String) :
    (req.language ∈ jsLanguages →
      (((env npxProg prettierArgs).spawnErr = some e →
          (format_code env elapsed req).1 =
            HttpResponse.failure 500
              { error := "Formatting failed", details := spawnPrettierMsg ++ e } ∧
          classifyPrettierFailure (spawnPrettierMsg ++ e) = some FailStep.spawnStep) ∧
       ((env npxProg prettierArgs).spawnErr = none →
        (env npxProg prettierArgs).writeErr = some e →
          (format_code env elapsed req).1 =
            HttpResponse.failure 500
              { error := "Formatting failed", details := writeStdinMsg ++ e } ∧
          classifyPrettierFailure (writeStdinMsg ++ e) = some FailStep.writeStep) ∧
       ((env npxProg prettierArgs).spawnErr = none →
        (env npxProg prettierArgs).writeErr = none →
        (env npxProg prettierArgs).waitErr = some e →
          (format_code env elapsed req).1 =
            HttpResponse.failure 500
              { error := "Formatting failed", details := waitPrettierMsg ++ e } ∧
          classifyPrettierFailure (waitPrettierMsg ++ e) = some FailStep.waitStep))) ∧
    (req.language = "rust" →
      (((env rustfmtProg rustfmtArgs).spawnErr = some e →
          (format_code env elapsed req).1 =
            HttpResponse.failure 500
              { error := "Formatting failed", details := spawnRustfmtMsg ++ e } ∧
          classifyRustfmtFailure (spawnRustfmtMsg ++ e) = some FailStep.spawnStep) ∧
       ((env rustfmtProg rustfmtArgs).spawnErr = none →
        (env rustfmtProg rustfmtArgs).writeErr = some e →
          (format_code env elapsed req).1 =
            HttpResponse.failure 500
              { error := "Formatting failed", details := writeStdinMsg ++ e } ∧
          classifyRustfmtFailure (writeStdinMsg ++ e) = some FailStep.writeStep) ∧
       ((env rustfmtProg rustfmtArgs).spawnErr = none →
        (env rustfmtProg rustfmtArgs).writeErr = none →
        (env rustfmtProg rustfmtArgs).waitErr = some e →
          (format_code env elapsed req).1 =
            HttpResponse.failure 500
              { error := "Formatting failed", details := waitRustfmtMsg ++ e } ∧
          classifyRustfmtFailure (waitRustfmtMsg ++ e) = some FailStep.waitStep))) := by
  constructor
  · intro hl
    refine ⟨fun h1 => ⟨?_, classifyPrettier_spawn e⟩,
            fun h1 h2 => ⟨?_, classifyPrettier_write e⟩,
            fun h1 h2 h3 => ⟨?_, classifyPrettier_wait e⟩⟩
    · rw [format_code_js env elapsed req hl, format_with_prettier_spawn_fail env req.code e h1]
      simp [respond]
    · rw [format_code_js env elapsed req hl,
          format_with_prettier_write_fail env req.code e h1 h2]
      simp [respond]
    · rw [format_code_js env elapsed req hl,
          format_with_prettier_wait_fail env req.code e h1 h2 h3]
      simp [respond]
  · intro hr
    refine ⟨fun h1 => ⟨?_, classifyRustfmt_spawn e⟩,
            fun h1 h2 => ⟨?_, classifyRustfmt_write e⟩,
            fun h1 h2 h3 => ⟨?_, classifyRustfmt_wait e⟩⟩
    · rw [format_code_rust env elapsed req hr,
          format_with_rustfmt_spawn_fail env req.code e h1]
      simp [respond]
    · rw [format_code_rust env elapsed req hr,
          format_with_rustfmt_write_fail env req.code e h1 h2]
      simp [respond]
    · rw [format_code_rust env elapsed req hr,
          format_with_rustfmt_wait_fail env req.code e h1 h2 h3]
      simp [respond]

theorem io_failure_surfaced_witness :
    (format_code envNoSpawn 4 ⟨"fn main()", "rust", none⟩).1 =
      HttpResponse.failure 500
        { error := "Formatting failed",
          details := spawnRustfmtMsg ++ "no such file" } ∧
    classifyRustfmtFailure (spawnRustfmtMsg ++ "no such file")
        = some FailStep.spawnStep :=
  ((io_failure_surfaced envNoSpawn 4 ⟨"fn main()", "rust", none⟩ "no such file").2
    rfl).1 rfl

/-- C7: two requests equal in `code` and `language` but with arbitrary
`formatter` hints produce identical dispatch results (response and
trace): the hint field is never consulted. -/
theorem formatter_hint_ignored (env : Env) (elapsed : Nat) (code lang : String)
    (f1 f2 : Option String) :
    format_code env elapsed ⟨code, lang, f1⟩ = format_code env elapsed ⟨code, lang, f2⟩ :=
  rfl

/-- C8: a dispatch whose spawn, stdin write, and wait all succeed
performs, in this order and before returning: one spawn, the write of
the whole code payload to the child's stdin, the flush/close of that
stdin, the reads of all of stdout and of stderr, and the wait for the
exit status. -/
theorem child_protocol_order (env : Env) (elapsed : Nat) (req : FormatRequest) :
    (req.language ∈ jsLanguages →
      (env npxProg prettierArgs).spawnErr = none →
      (env npxProg prettierArgs).writeErr = none →
      (env npxProg prettierArgs).waitErr = none →
      (format_code env elapsed req).2 =
        [IOEvent.spawn npxProg prettierArgs, IOEvent.writeStdin req.code,
         IOEvent.closeStdin, IOEvent.readStdout (env npxProg prettierArgs).stdoutBytes,
         IOEvent.readStderr (env npxProg prettierArgs).stderrBytes,
         IOEvent.waitExit (env npxProg prettierArgs).exitSuccess]) ∧
    (req.language = "rust" →
      (env rustfmtProg rustfmtArgs).spawnErr = none →
      (env rustfmtProg rustfmtArgs).writeErr = none →
      (env rustfmtProg rustfmtArgs).waitErr = none →
      (format_code env elapsed req).2 =
        [IOEvent.spawn rustfmtProg rustfmtArgs, IOEvent.writeStdin req.code,
         IOEvent.closeStdin, IOEvent.readStdout (env rustfmtProg rustfmtArgs).stdoutBytes,
         IOEvent.readStderr (env rustfmtProg rustfmtArgs).stderrBytes,
         IOEvent.waitExit (env rustfmtProg rustfmtArgs).exitSuccess]) := by
  constructor
  · intro hl h1 h2 h3
    rw [format_code_js env elapsed req hl, respond_snd,
        format_with_prettier_run env req.code h1 h2 h3]
  · intro hr h1 h2 h3
    rw [format_code_rust env elapsed req hr, respond_snd,
        format_with_rustfmt_run env req.code h1 h2 h3]

theorem child_protocol_order_witness :
    (format_code envOk 6 ⟨"const x=1", "js", none⟩).2 =
      [IOEvent.spawn npxProg prettierArgs, IOEvent.writeStdin "const x=1",
       IOEvent.closeStdin, IOEvent.readStdout (envOk npxProg prettierArgs).stdoutBytes,
       IOEvent.readStderr (envOk npxProg prettierArgs).stderrBytes,
       IOEvent.waitExit (envOk npxProg prettierArgs).exitSuccess] := by
  exact (child_protocol_order envOk 6 ⟨"const x=1", "js", none⟩).1
    (by simp [jsLanguages]) rfl rfl rfl

/-- C9: every 500 response of the handler carries the same fixed error
field `"Formatting failed"`, whatever the underlying failure kind. -/
theorem http500_error_field (env : Env) (elapsed : Nat) (req : FormatRequest)
    (body : ErrorResponse) (tr : List IOEvent) :
    format_code env elapsed req = (HttpResponse.failure 500 body, tr) →
    body.error = "Formatting failed" := by
  intro h
  by_cases hl : req.language ∈ jsLanguages
  · rw [format_code_js env elapsed req hl] at h
    exact (respond_failure elapsed _ 500 body tr h).2.1
  · by_cases hr : req.language = "rust"
    · rw [format_code_rust env elapsed req hr] at h
      exact (respond_failure elapsed _ 500 body tr h).2.1
    · rw [format_code_other env elapsed req hl hr] at h
      simp at h

theorem http500_error_field_witness :
    ({ error := "Formatting failed", details := spawnPrettierMsg ++ "no such file" } :
        ErrorResponse).error = "Formatting failed" :=
  http500_error_field envNoSpawn 9 ⟨"x", "js", none⟩ _ _
    (by rw [format_code_js envNoSpawn 9 ⟨"x", "js", none⟩ (by simp [jsLanguages]),
            format_with_prettier_spawn_fail envNoSpawn "x" "no such file" rfl]
        rfl)

/-- C10: the `GET /health` handler is a constant: its body always has
status `"healthy"`, service `"speed-formatter-mvp"` and version
`"0.1.0"`, independent of any request content or prior requests. -/
theorem health_fixed :
    health.status = "healthy" ∧ health.service = "speed-formatter-mvp" ∧
    health.version = "0.1.0" :=
  ⟨rfl, rfl, rfl⟩

end SpeedFormatter
